import Mathlib

/-!
# Exercise tracker: a shallow embedding of `index.js`

The program is a set of four HTTP handlers over two MongoDB collections,
accessed through Mongoose.  The embedding has three layers.

* `Platform`: the string-level behaviour of the JavaScript runtime and of the
  BSON driver that `index.js` calls but does not define (`parseInt`,
  `new Date(string)`, the ObjectId cast, the local time zone).  Handlers take a
  `Platform` as a parameter; `refPlatform` is one concrete instance.
* The collections and the two schemas declared in `index.js` (lines 21-30):
  `required`, `unique`, the `Number` and `Date` casts, `find`, `limit`.
* The four handlers, statement by statement, with `try/catch` rendered as a
  match on `Except`.

The database is assumed reachable and the indexes that the schemas declare are
assumed built: an operation fails only for a reason the schema or the query
itself gives.  Form and query fields are absent or strings.

What the embedding takes from Mongoose and MongoDB:

* `required: true` on a `String` path rejects a missing value and the empty
  string;
* the `Number` cast rejects `NaN` and the `Date` cast rejects the Invalid Date,
  in a document when it is saved and in a query condition when the query runs;
* `findById` rejects when its argument does not cast to an ObjectId;
* an insert rejects when it repeats an `_id` or the value of a `unique` path;
* `find` reads in natural order, which is insertion order as long as nothing is
  deleted, and a limit of `0` sets no limit.

Every rejection is an exception inside the handler's `try`, so it is answered
by the handler's `catch` with status 500.
-/

namespace ExerciseTracker

/-! ## Values -/

/-- An ObjectId, identified by its canonical hexadecimal rendering. -/
structure ObjectId where
  hex : String
deriving DecidableEq, Repr

/-- A JavaScript number as `parseInt` produces it: an integer or `NaN`. -/
inductive JsNumber where
  | int (n : Int)
  | nan
deriving DecidableEq, Repr

/-- A JavaScript `Date` object: a time value in milliseconds since the epoch,
or the Invalid Date. -/
inductive JsDate where
  | time (ms : Int)
  | invalid
deriving DecidableEq, Repr

/-- What the handlers use of the runtime underneath them. -/
structure Platform where
  /-- The cast of a string to an ObjectId; `none` when the string is not one. -/
  castObjectId : String → Option ObjectId
  /-- JavaScript `parseInt(string)`. -/
  parseInt : String → JsNumber
  /-- JavaScript `new Date(string)`. -/
  newDate : String → JsDate
  /-- Offset of local time from UTC, in milliseconds, at a given time value. -/
  localTZA : Int → Int

/-- JavaScript truthiness of a form or query field: `undefined` and the empty
string are falsy, every other string is truthy. -/
def truthy : Option String → Bool
  | none => false
  | some s => s != ""

/-- The call `parseInt(x)` on a field: `parseInt(undefined)` is `NaN`. -/
def parseIntField (env : Platform) : Option String → JsNumber
  | none => JsNumber.nan
  | some s => env.parseInt s

/-! ## Calendar rendering: `Date.prototype.toDateString` -/

/-- Milliseconds per day. -/
def msPerDay : Int := 86400000

/-- Year, month (1-12) and day of month (1-31) of a day number counted from
1970-01-01, in the proleptic Gregorian calendar. -/
def civilFromDays (days : Int) : Int × Int × Int :=
  let z := days + 719468
  let era := z / 146097
  let doe := z % 146097
  let yoe := (doe - doe / 1460 + doe / 36524 - doe / 146096) / 365
  let doy := doe - (365 * yoe + yoe / 4 - yoe / 100)
  let mp := (5 * doy + 2) / 153
  let d := doy - (153 * mp + 2) / 5 + 1
  let m := if mp < 10 then mp + 3 else mp - 9
  let y := yoe + era * 400
  (if m ≤ 2 then y + 1 else y, m, d)

/-- Three-letter weekday names, Sunday first. -/
def weekDayName (w : Int) : String :=
  match w with
  | 0 => "Sun" | 1 => "Mon" | 2 => "Tue" | 3 => "Wed"
  | 4 => "Thu" | 5 => "Fri" | _ => "Sat"

/-- Three-letter month names. -/
def monthName (m : Int) : String :=
  match m with
  | 1 => "Jan" | 2 => "Feb" | 3 => "Mar" | 4 => "Apr" | 5 => "May" | 6 => "Jun"
  | 7 => "Jul" | 8 => "Aug" | 9 => "Sep" | 10 => "Oct" | 11 => "Nov" | _ => "Dec"

/-- The decimal digit character of `d % 10`. -/
def digitChar (d : Nat) : Char := Char.ofNat (48 + d % 10)

/-- A natural number in decimal, padded with zeros to two digits. -/
def pad2 (n : Nat) : String :=
  if n < 100 then String.mk [digitChar (n / 10), digitChar n] else toString n

/-- A natural number in decimal, padded with zeros to four digits. -/
def pad4 (n : Nat) : String :=
  if n < 10000 then
    String.mk [digitChar (n / 1000), digitChar (n / 100), digitChar (n / 10), digitChar n]
  else toString n

/-- The calendar string of a day number: weekday, month, day, year. -/
def dateStringOfDay (days : Int) : String :=
  let ymd := civilFromDays days
  let yr := ymd.1
  weekDayName ((days + 4) % 7) ++ " " ++ monthName ymd.2.1 ++ " "
    ++ pad2 ymd.2.2.toNat ++ " "
    ++ (if yr < 0 then "-" else "") ++ pad4 yr.natAbs

/-- The local day number of a time value. -/
def localDay (env : Platform) (t : Int) : Int := (t + env.localTZA t) / msPerDay

/-- The method `Date.prototype.toDateString`: the calendar string of the local
day, which is all of the time value that it shows. -/
def toDateString (env : Platform) : JsDate → String
  | JsDate.time t => dateStringOfDay (localDay env t)
  | JsDate.invalid => "Invalid Date"

/-! ## Collections and schemas -/

/-- A stored User document (`userSchema`). -/
structure User where
  _id : ObjectId
  username : String
deriving DecidableEq, Repr

/-- A stored Exercise document (`exerciseSchema`). -/
structure Exercise where
  _id : ObjectId
  user : ObjectId
  description : String
  duration : Int
  date : Int
deriving DecidableEq, Repr

/-- The database: the two collections, each in its natural order. -/
structure Store where
  users : List User
  exercises : List Exercise
deriving DecidableEq, Repr

/-- The database before any request. -/
def Store.empty : Store := ⟨[], []⟩

/-- The document `new User({ username })`, not yet validated. -/
structure UserDoc where
  _id : ObjectId
  username : Option String

/-- The document `new Exercise({ user, description, duration, date })`, not yet
validated. -/
structure ExerciseDoc where
  _id : ObjectId
  user : ObjectId
  description : Option String
  duration : JsNumber
  date : JsDate

deriving instance DecidableEq for Except

/-- Why a Mongoose call rejects. -/
inductive MongooseError where
  | validation
  | cast
  | duplicateKey
  | badValue
deriving DecidableEq, Repr

/-- The `required: true` validator of a `String` path: the value must be a
string and must not be empty. -/
def requiredString : Option String → Option String
  | none => none
  | some s => if s = "" then none else some s

/-- The cast of a `Number` path: `NaN` does not cast. -/
def castNumber : JsNumber → Option Int
  | JsNumber.int n => some n
  | JsNumber.nan => none

/-- The cast of a `Date` path: the Invalid Date does not cast. -/
def castDate : JsDate → Option Int
  | JsDate.time t => some t
  | JsDate.invalid => none

/-- Validation of a User document against `userSchema`. -/
def UserDoc.validate (doc : UserDoc) : Option User :=
  match requiredString doc.username with
  | some name => some ⟨doc._id, name⟩
  | none => none

/-- Validation of an Exercise document against `exerciseSchema`: every path is
required, and `duration` and `date` must cast. -/
def ExerciseDoc.validate (doc : ExerciseDoc) : Option Exercise :=
  match requiredString doc.description, castNumber doc.duration, castDate doc.date with
  | some desc, some dur, some t => some ⟨doc._id, doc.user, desc, dur, t⟩
  | _, _, _ => none

/-- The call `newUser.save()`: validation, then an insert that the `_id` index
and the `unique` index on `username` can reject. -/
def UserDoc.save (s : Store) (doc : UserDoc) : Except MongooseError (User × Store) :=
  match doc.validate with
  | none => Except.error MongooseError.validation
  | some u =>
    if s.users.any (fun v => v._id = u._id) then Except.error MongooseError.duplicateKey
    else if s.users.any (fun v => v.username = u.username) then
      Except.error MongooseError.duplicateKey
    else Except.ok (u, { s with users := s.users ++ [u] })

/-- The call `exercise.save()`: validation, then an insert that the `_id` index
can reject. -/
def ExerciseDoc.save (s : Store) (doc : ExerciseDoc) :
    Except MongooseError (Exercise × Store) :=
  match doc.validate with
  | none => Except.error MongooseError.validation
  | some e =>
    if s.exercises.any (fun x => x._id = e._id) then Except.error MongooseError.duplicateKey
    else Except.ok (e, { s with exercises := s.exercises ++ [e] })

/-- The call `User.findById(userId)`: a string that is no ObjectId rejects with a
cast error; otherwise the stored User with that `_id`, or `null`. -/
def User.findById (env : Platform) (s : Store) (userId : String) :
    Except MongooseError (Option User) :=
  match env.castObjectId userId with
  | none => Except.error MongooseError.cast
  | some oid => Except.ok (s.users.find? (fun u => u._id = oid))

/-- The object `dateFilter`: its `$gte` and `$lte` keys, each present or not. -/
structure DateFilter where
  gte : Option JsDate
  lte : Option JsDate

/-- The object `query` together with the limit put on it: the `user` key, the
optional `date` key, and the argument of `.limit(...)` when it was called. -/
structure ExerciseQuery where
  user : String
  date : Option DateFilter
  limit : Option JsNumber

/-- The cast of one bound of a date condition. -/
def castBound : Option JsDate → Option (Option Int)
  | none => some none
  | some d => (castDate d).map some

/-- Whether a stored date satisfies a condition `{ $gte, $lte }` whose bounds
are already cast. -/
def dateMatches (lo hi : Option Int) (d : Int) : Bool :=
  (match lo with | some l => decide (l ≤ d) | none => true) &&
  (match hi with | some h => decide (d ≤ h) | none => true)

/-- The effect of `.limit(n)` on the documents a query matches, in natural
order: a positive `n` keeps the first `n`; `0` sets no limit; a negative `n`
is sent as its absolute value; `NaN` is rejected as not an integer. -/
def applyLimit {α : Type} : Option JsNumber → List α → Except MongooseError (List α)
  | none, xs => Except.ok xs
  | some (JsNumber.int n), xs => if n = 0 then Except.ok xs else Except.ok (xs.take n.natAbs)
  | some JsNumber.nan, _ => Except.error MongooseError.badValue

/-- Awaiting `Exercise.find(query)` with its limit: the conditions are cast to
the schema types, then the matching documents are read in natural order. -/
def Exercise.find (env : Platform) (s : Store) (q : ExerciseQuery) :
    Except MongooseError (List Exercise) :=
  match env.castObjectId q.user with
  | none => Except.error MongooseError.cast
  | some uid =>
    match q.date with
    | none => applyLimit q.limit (s.exercises.filter (fun e => e.user = uid))
    | some f =>
      match castBound f.gte, castBound f.lte with
      | some lo, some hi =>
        applyLimit q.limit
          (s.exercises.filter (fun e => e.user = uid && dateMatches lo hi e.date))
      | _, _ => Except.error MongooseError.cast

/-! ## Responses -/

/-- One element of the `log` array. -/
structure LogEntry where
  description : String
  duration : Int
  date : String
deriving DecidableEq, Repr

/-- The JSON bodies the handlers send. -/
inductive Body where
  /-- The object `{ username, _id }`. -/
  | user (username : String) (_id : ObjectId)
  /-- The array of `{ username, _id }` objects. -/
  | users (us : List User)
  /-- The object `{ _id, username, description, duration, date }`. -/
  | exercise (_id : ObjectId) (username : String) (description : Option String)
      (duration : JsNumber) (date : String)
  /-- The object `{ username, count, _id, log }`. -/
  | logs (username : String) (count : Nat) (_id : ObjectId) (log : List LogEntry)
  /-- The object `{ error }`. -/
  | error (message : String)
deriving DecidableEq, Repr

/-- An HTTP response: status code and JSON body. -/
structure Response where
  status : Nat
  body : Body
deriving DecidableEq, Repr

/-! ## Handlers -/

/-- The pattern `if (x) key = f(x)`: the key is set when the field is truthy. -/
def whenTruthy {β : Type} (f : String → β) : Option String → Option β
  | none => none
  | some x => if x != "" then some (f x) else none

/-- The handler of `POST /api/users` (lines 41-54).  `newId` is the ObjectId that
`new User(...)` generates. -/
def createUser (s : Store) (newId : ObjectId) (username : Option String) :
    Response × Store :=
  match UserDoc.save s ⟨newId, username⟩ with
  | Except.ok (savedUser, s') => (⟨200, Body.user savedUser.username savedUser._id⟩, s')
  | Except.error _ => (⟨500, Body.error "Failed to create user"⟩, s)

/-- The handler of `GET /api/users` (lines 57-64). -/
def listUsers (s : Store) : Response × Store :=
  (⟨200, Body.users s.users⟩, s)

/-- The expression `date ? new Date(date) : new Date()`, with `now` the clock
reading of `new Date()`. -/
def exerciseDateOf (env : Platform) (now : Int) : Option String → JsDate
  | none => JsDate.time now
  | some d => if d != "" then env.newDate d else JsDate.time now

/-- The handler of `POST /api/users/:_id/exercises` (lines 67-96).  `newId` is the
ObjectId that `new Exercise(...)` generates and `now` the clock reading of the request. -/
def addExercise (env : Platform) (s : Store) (newId : ObjectId) (now : Int)
    (userId : String) (description duration date : Option String) : Response × Store :=
  match User.findById env s userId with
  | Except.error _ => (⟨500, Body.error "Failed to add exercise"⟩, s)
  | Except.ok none => (⟨400, Body.error "User not found"⟩, s)
  | Except.ok (some user) =>
    let exerciseDate := exerciseDateOf env now date
    let exercise : ExerciseDoc :=
      ⟨newId, user._id, description, parseIntField env duration, exerciseDate⟩
    match exercise.save s with
    | Except.error _ => (⟨500, Body.error "Failed to add exercise"⟩, s)
    | Except.ok (_, s') =>
      (⟨200, Body.exercise user._id user.username description
          (parseIntField env duration) (toDateString env exerciseDate)⟩, s')

/-- The `query` object of the log handler and the limit put on it
(lines 107-115). -/
def logsQuery (env : Platform) (userId : String) (fromQ toQ limitQ : Option String) :
    ExerciseQuery :=
  let dateFilter : DateFilter := ⟨whenTruthy env.newDate fromQ, whenTruthy env.newDate toQ⟩
  { user := userId
    date := if truthy fromQ || truthy toQ then some dateFilter else none
    limit := whenTruthy env.parseInt limitQ }

/-- The mapping of a stored exercise to its `log` element (lines 119-123). -/
def logEntry (env : Platform) (ex : Exercise) : LogEntry :=
  ⟨ex.description, ex.duration, toDateString env (JsDate.time ex.date)⟩

/-- The handler of `GET /api/users/:_id/logs` (lines 99-134). -/
def getLogs (env : Platform) (s : Store) (userId : String)
    (fromQ toQ limitQ : Option String) : Response × Store :=
  match User.findById env s userId with
  | Except.error _ => (⟨500, Body.error "Failed to fetch logs"⟩, s)
  | Except.ok none => (⟨404, Body.error "User not found"⟩, s)
  | Except.ok (some user) =>
    match Exercise.find env s (logsQuery env userId fromQ toQ limitQ) with
    | Except.error _ => (⟨500, Body.error "Failed to fetch logs"⟩, s)
    | Except.ok exercises =>
      let log := exercises.map (logEntry env)
      (⟨200, Body.logs user.username log.length user._id log⟩, s)

/-! ## Requests and reachable stores -/

/-- A request to one of the four API routes, with what the environment
contributes to it (generated ObjectId, clock reading). -/
inductive Request where
  | createUser (newId : ObjectId) (username : Option String)
  | listUsers
  | addExercise (newId : ObjectId) (now : Int) (userId : String)
      (description duration date : Option String)
  | getLogs (userId : String) (fromQ toQ limitQ : Option String)

/-- The handler a request is routed to. -/
def handle (env : Platform) (s : Store) : Request → Response × Store
  | Request.createUser newId username => createUser s newId username
  | Request.listUsers => listUsers s
  | Request.addExercise newId now userId description duration date =>
    addExercise env s newId now userId description duration date
  | Request.getLogs userId fromQ toQ limitQ => getLogs env s userId fromQ toQ limitQ

/-- The store after a sequence of requests, served one after the other. -/
def run (env : Platform) (s : Store) : List Request → Store
  | [] => s
  | r :: rs => run env (handle env s r).2 rs

/-- The stores reachable from the empty store by a sequence of requests. -/
def Reachable (env : Platform) (s : Store) : Prop :=
  ∃ rs : List Request, run env Store.empty rs = s

/-! ## A reference platform

One instance of `Platform`, used to evaluate the handlers on concrete requests.
It follows ECMAScript for `parseInt` and for the date-only ISO form of
`new Date(string)`, reads an ObjectId as 24 hexadecimal digits, and runs in
UTC.  It is narrower than a JavaScript engine in three ways, none of which the
requests evaluated below touch:

* integers are exact, where a JavaScript number rounds beyond `2^53` and is
  `Infinity` for a long enough run of digits;
* only `YYYY-MM-DD` naming a day of the calendar is a date; an engine also
  reads date-times and other forms, and may roll a day such as `2024-02-30`
  over into the next month, all of which are the Invalid Date here;
* an ObjectId is 24 hexadecimal digits only.

The theorems that are stated for every `Platform` do not depend on it. -/

/-- The value of a digit character in radices up to 36. -/
def digitValue (c : Char) : Option Nat :=
  if '0' ≤ c ∧ c ≤ '9' then some (c.toNat - 48)
  else if 'a' ≤ c ∧ c ≤ 'z' then some (c.toNat - 87)
  else if 'A' ≤ c ∧ c ≤ 'Z' then some (c.toNat - 55)
  else none

/-- The ObjectId cast: exactly 24 hexadecimal digits, kept in lower case. -/
def refCastObjectId (str : String) : Option ObjectId :=
  let cs := str.toList
  if cs.length = 24 ∧ cs.all (fun c => (digitValue c).any (fun v => v < 16)) = true then
    some ⟨String.mk (cs.map Char.toLower)⟩
  else none

/-- White space and line terminators of ECMAScript, which `parseInt` skips. -/
def isWhiteSpace (c : Char) : Bool :=
  c.toNat = 32 || (9 ≤ c.toNat && c.toNat ≤ 13) || c.toNat = 160 || c.toNat = 5760 ||
    (8192 ≤ c.toNat && c.toNat ≤ 8202) || c.toNat = 8232 || c.toNat = 8233 ||
    c.toNat = 8239 || c.toNat = 8287 || c.toNat = 12288 || c.toNat = 65279

/-- The value of the longest run of radix-`r` digits at the head of a list;
`acc` is the value read so far, `none` before the first digit. -/
def readDigits (r : Nat) : List Char → Option Nat → Option Nat
  | [], acc => acc
  | c :: cs, acc =>
    match digitValue c with
    | some v => if v < r then readDigits r cs (some (acc.getD 0 * r + v)) else acc
    | none => acc

/-- The function `parseInt(string)` with no radix argument: white space, a sign, an optional
`0x`, then the longest run of digits; `NaN` when there is no digit. -/
def refParseInt (str : String) : JsNumber :=
  let cs := str.toList.dropWhile isWhiteSpace
  let signed : Bool × List Char :=
    match cs with
    | '-' :: r => (true, r)
    | '+' :: r => (false, r)
    | _ => (false, cs)
  let based : Nat × List Char :=
    match signed.2 with
    | '0' :: 'x' :: r => (16, r)
    | '0' :: 'X' :: r => (16, r)
    | _ => (10, signed.2)
  match readDigits based.1 based.2 none with
  | none => JsNumber.nan
  | some n => JsNumber.int (if signed.1 then -(n : Int) else n)

/-- The day number, counted from 1970-01-01, of a year, month and day. -/
def daysFromCivil (y m d : Int) : Int :=
  let y1 := if m ≤ 2 then y - 1 else y
  let era := y1 / 400
  let yoe := y1 % 400
  let mp := if m > 2 then m - 3 else m + 9
  let doy := (153 * mp + 2) / 5 + d - 1
  let doe := yoe * 365 + yoe / 4 - yoe / 100 + doy
  era * 146097 + doe - 719468

/-- The constructor `new Date(string)` on the form `YYYY-MM-DD`: UTC midnight of
that day when it is a day of the calendar; the Invalid Date for every other
string, which is narrower than an engine (see the section header). -/
def refNewDate (str : String) : JsDate :=
  match str.toList with
  | [y1, y2, y3, y4, '-', m1, m2, '-', d1, d2] =>
    if [y1, y2, y3, y4, m1, m2, d1, d2].all Char.isDigit then
      let y : Int := (readDigits 10 [y1, y2, y3, y4] none).getD 0
      let m : Int := (readDigits 10 [m1, m2] none).getD 0
      let d : Int := (readDigits 10 [d1, d2] none).getD 0
      let days := daysFromCivil y m d
      if civilFromDays days = (y, m, d) then JsDate.time (days * msPerDay)
      else JsDate.invalid
    else JsDate.invalid
  | _ => JsDate.invalid

/-- The reference platform. -/
def refPlatform : Platform :=
  { castObjectId := refCastObjectId
    parseInt := refParseInt
    newDate := refNewDate
    localTZA := fun _ => 0 }


/-! ## The date range of the specification -/

/-- The date range as the specification words it: `lo ≤ d` when a lower bound
is given and `d ≤ hi` when an upper bound is given, both inclusive, each bound
applying on its own. -/
def inRange (lo hi : Option Int) (d : Int) : Prop :=
  (∀ l ∈ lo, l ≤ d) ∧ (∀ h ∈ hi, d ≤ h)

instance (lo hi : Option Int) (d : Int) : Decidable (inRange lo hi d) := by
  unfold inRange
  infer_instance

/-- The exercises of one user whose date is in the range, in store order. -/
def userExercisesInRange (s : Store) (uid : ObjectId) (lo hi : Option Int) : List Exercise :=
  s.exercises.filter (fun e => decide (e.user = uid ∧ inRange lo hi e.date))

/-! ## Invariants of the store -/

/-- Every stored exercise refers to a stored user. -/
def RefIntegrity (s : Store) : Prop :=
  ∀ e ∈ s.exercises, ∃ u ∈ s.users, u._id = e.user

/-- No two stored users have the same username. -/
def UniqueNames (s : Store) : Prop :=
  s.users.Pairwise (fun a b => a.username ≠ b.username)

/-! ## Sample data -/

/-- A sample ObjectId, used for a user. -/
def annId : ObjectId := ⟨"507f1f77bcf86cd799439011"⟩

/-- The same ObjectId as it appears in a request path. -/
def annPath : String := "507f1f77bcf86cd799439011"

/-- A store with one user and two exercises of that user. -/
def sampleStore : Store :=
  { users := [⟨annId, "ann"⟩]
    exercises :=
      [ ⟨⟨"65e000000000000000000001"⟩, annId, "run", 30, 1709164800000⟩,
        ⟨⟨"65e000000000000000000002"⟩, annId, "swim", 45, 1709251200000⟩ ] }

/-- Requests that build `sampleStore` from the empty store. -/
def sampleRequests : List Request :=
  [ Request.createUser annId (some "ann"),
    Request.addExercise ⟨"65e000000000000000000001"⟩ 0 annPath (some "run") (some "30")
      (some "2024-02-29"),
    Request.addExercise ⟨"65e000000000000000000002"⟩ 1709251200000 annPath (some "swim")
      (some "45") none ]

/-! ## Shared lemmas -/

theorem findById_ok_some {env : Platform} {s : Store} {userId : String} {user : User}
    (h : User.findById env s userId = Except.ok (some user)) :
    user ∈ s.users ∧ env.castObjectId userId = some user._id := by
  unfold User.findById at h
  cases hc : env.castObjectId userId with
  | none => simp [hc] at h
  | some oid =>
    simp only [hc, Except.ok.injEq] at h
    have hm := List.mem_of_find?_eq_some h
    have hp := List.find?_some h
    simp only [decide_eq_true_eq] at hp
    exact ⟨hm, by rw [hp]⟩

theorem findById_of_cast_none {env : Platform} {s : Store} {userId : String}
    (h : env.castObjectId userId = none) :
    User.findById env s userId = Except.error MongooseError.cast := by
  simp [User.findById, h]

theorem findById_of_absent {env : Platform} {s : Store} {userId : String} {oid : ObjectId}
    (h : env.castObjectId userId = some oid) (habs : ∀ u ∈ s.users, u._id ≠ oid) :
    User.findById env s userId = Except.ok none := by
  simp only [User.findById, h, Except.ok.injEq, List.find?_eq_none, decide_eq_true_eq]
  exact habs

theorem getLogs_store (env : Platform) (s : Store) (userId : String)
    (fromQ toQ limitQ : Option String) : (getLogs env s userId fromQ toQ limitQ).2 = s := by
  unfold getLogs
  split
  · rfl
  · rfl
  · split <;> rfl

theorem createUser_cases (s : Store) (newId : ObjectId) (username : Option String) :
    (createUser s newId username).2 = s ∨
      ∃ name, requiredString username = some name ∧
        (∀ v ∈ s.users, v.username ≠ name) ∧
        (createUser s newId username).2 = { s with users := s.users ++ [⟨newId, name⟩] } := by
  unfold createUser UserDoc.save UserDoc.validate
  cases hr : requiredString username with
  | none => left; rfl
  | some name =>
    simp only
    split_ifs with h1 h2
    · left; rfl
    · left; rfl
    · right
      refine ⟨name, rfl, ?_, rfl⟩
      intro v hv hEq
      apply h2
      simp only [List.any_eq_true, decide_eq_true_eq]
      exact ⟨v, hv, hEq⟩

theorem addExercise_cases (env : Platform) (s : Store) (newId : ObjectId) (now : Int)
    (userId : String) (description duration date : Option String) :
    (addExercise env s newId now userId description duration date).2 = s ∨
      ∃ user e, user ∈ s.users ∧ e.user = user._id ∧
        (addExercise env s newId now userId description duration date).2
          = { s with exercises := s.exercises ++ [e] } := by
  unfold addExercise
  split
  · left; rfl
  · left; rfl
  · next user hu =>
    simp only
    split
    · left; rfl
    · next e s' hs =>
      right
      unfold ExerciseDoc.save at hs
      split at hs
      · simp at hs
      · next e' hv =>
        split_ifs at hs with hdup
        simp only [Except.ok.injEq, Prod.mk.injEq] at hs
        refine ⟨user, e', (findById_ok_some hu).1, ?_, hs.2.symm⟩
        unfold ExerciseDoc.validate at hv
        split at hv
        · simp only [Option.some.injEq] at hv
          rw [← hv]
        · simp at hv


theorem handle_refIntegrity (env : Platform) (s : Store) (r : Request)
    (h : RefIntegrity s) : RefIntegrity (handle env s r).2 := by
  cases r with
  | createUser newId username =>
    rcases createUser_cases s newId username with hs | ⟨name, _, _, hs⟩
    · simp only [handle, hs]; exact h
    · simp only [handle, hs]
      intro e he
      obtain ⟨u, hu, hue⟩ := h e he
      exact ⟨u, List.mem_append_left _ hu, hue⟩
  | listUsers => exact h
  | addExercise newId now userId description duration date =>
    rcases addExercise_cases env s newId now userId description duration date with
      hs | ⟨user, e, hu, heu, hs⟩
    · simp only [handle, hs]; exact h
    · simp only [handle, hs]
      intro x hx
      rcases List.mem_append.mp hx with hx | hx
      · exact h x hx
      · rw [List.mem_singleton] at hx
        exact ⟨user, hu, by rw [hx, heu]⟩
  | getLogs userId fromQ toQ limitQ =>
    simp only [handle, getLogs_store]; exact h

theorem handle_uniqueNames (env : Platform) (s : Store) (r : Request)
    (h : UniqueNames s) : UniqueNames (handle env s r).2 := by
  cases r with
  | createUser newId username =>
    rcases createUser_cases s newId username with hs | ⟨name, _, hfresh, hs⟩
    · simp only [handle, hs]; exact h
    · simp only [handle, hs, UniqueNames]
      rw [List.pairwise_append]
      refine ⟨h, List.pairwise_singleton _ _, ?_⟩
      intro a ha b hb
      rw [List.mem_singleton] at hb
      rw [hb]
      exact hfresh a ha
  | listUsers => exact h
  | addExercise newId now userId description duration date =>
    rcases addExercise_cases env s newId now userId description duration date with
      hs | ⟨user, e, _, _, hs⟩
    · simp only [handle, hs]; exact h
    · simp only [handle, hs]; exact h
  | getLogs userId fromQ toQ limitQ =>
    simp only [handle, getLogs_store]; exact h

theorem run_invariant (env : Platform) (P : Store → Prop)
    (hstep : ∀ s r, P s → P (handle env s r).2) :
    ∀ (rs : List Request) (s : Store), P s → P (run env s rs) := by
  intro rs
  induction rs with
  | nil => intro s hs; exact hs
  | cons r rs ih => intro s hs; exact ih _ (hstep s r hs)

theorem dateMatches_eq_inRange (lo hi : Option Int) (d : Int) :
    dateMatches lo hi d = decide (inRange lo hi d) := by
  cases lo <;> cases hi <;> simp [dateMatches, inRange]

theorem truthy_eq_isSome {β : Type} (f : String → β) (q : Option String) :
    truthy q = (whenTruthy f q).isSome := by
  cases q with
  | none => rfl
  | some x =>
    by_cases hx : x = ""
    · simp [truthy, whenTruthy, hx]
    · simp [truthy, whenTruthy, hx]

theorem castBound_map_time (b : Option Int) : castBound (b.map JsDate.time) = some b := by
  cases b <;> rfl

/-- What the query of the log handler reads, when each given bound is a valid
date: the limit applied to the user's exercises in the range. -/
theorem find_logsQuery (env : Platform) (s : Store) (userId : String)
    (fromQ toQ limitQ : Option String) (user : User) (lo hi : Option Int)
    (hu : User.findById env s userId = Except.ok (some user))
    (hf : whenTruthy env.newDate fromQ = lo.map JsDate.time)
    (ht : whenTruthy env.newDate toQ = hi.map JsDate.time) :
    Exercise.find env s (logsQuery env userId fromQ toQ limitQ)
      = applyLimit (whenTruthy env.parseInt limitQ) (userExercisesInRange s user._id lo hi) := by
  have hc := (findById_ok_some hu).2
  have h1 : truthy fromQ = lo.isSome := by
    rw [truthy_eq_isSome env.newDate, hf]; cases lo <;> rfl
  have h2 : truthy toQ = hi.isSome := by
    rw [truthy_eq_isSome env.newDate, ht]; cases hi <;> rfl
  unfold Exercise.find logsQuery userExercisesInRange
  simp only [hc, h1, h2, hf, ht]
  cases lo with
  | none =>
    cases hi with
    | none =>
      simp only [Option.isSome_none, Bool.or_self, Bool.false_eq_true, if_false]
      congr 1
      apply List.filter_congr
      intro e _
      simp [inRange]
    | some h =>
      simp only [Option.isSome_some, Bool.or_true, if_true, castBound_map_time]
      congr 1
      apply List.filter_congr
      intro e _
      simp [dateMatches_eq_inRange]
  | some l =>
    simp only [Option.isSome_some, Bool.true_or, if_true, castBound_map_time]
    congr 1
    apply List.filter_congr
    intro e _
    simp [dateMatches_eq_inRange]

/-- A bound that is given and is the Invalid Date makes the query reject. -/
theorem find_logsQuery_invalid (env : Platform) (s : Store) (userId : String)
    (fromQ toQ limitQ : Option String)
    (h : whenTruthy env.newDate fromQ = some JsDate.invalid ∨
      whenTruthy env.newDate toQ = some JsDate.invalid) :
    ∃ err, Exercise.find env s (logsQuery env userId fromQ toQ limitQ) = Except.error err := by
  unfold Exercise.find logsQuery
  cases hc : env.castObjectId userId with
  | none => exact ⟨_, rfl⟩
  | some uid =>
    have hor : (truthy fromQ || truthy toQ) = true := by
      rw [truthy_eq_isSome env.newDate fromQ, truthy_eq_isSome env.newDate toQ]
      rcases h with h | h <;> simp [h]
    simp only [hor, if_true]
    rcases h with h | h
    · simp only [h, castBound, castDate, Option.map_none']
      exact ⟨_, rfl⟩
    · simp only [h, castBound, castDate, Option.map_none']
      split
      · next heq => simp at heq
      · exact ⟨_, rfl⟩

theorem validate_nan (newId user : ObjectId) (description : Option String) (date : JsDate) :
    ExerciseDoc.validate ⟨newId, user, description, JsNumber.nan, date⟩ = none := by
  unfold ExerciseDoc.validate
  cases requiredString description <;> cases date <;> rfl

theorem validate_invalid (newId user : ObjectId) (description : Option String)
    (duration : JsNumber) :
    ExerciseDoc.validate ⟨newId, user, description, duration, JsDate.invalid⟩ = none := by
  unfold ExerciseDoc.validate
  cases requiredString description <;> cases duration <;> rfl

/-! ## C1 -/

/-- C1. In every store reachable from the empty store by a sequence of
createUser, listUsers, addExercise and getLogs requests, the `user` field of
every stored exercise is the `_id` of a stored user. -/
theorem exercise_user_exists (env : Platform) (s : Store) (h : Reachable env s) :
    ∀ e ∈ s.exercises, ∃ u ∈ s.users, u._id = e.user := by
  obtain ⟨rs, hrs⟩ := h
  rw [← hrs]
  refine run_invariant env RefIntegrity (handle_refIntegrity env) rs Store.empty ?_
  intro e he
  simp [Store.empty] at he

/-- C1 at the sample store, which the sample requests reach. -/
theorem exercise_user_exists_witness :
    Reachable refPlatform sampleStore ∧
      ∀ e ∈ sampleStore.exercises, ∃ u ∈ sampleStore.users, u._id = e.user :=
  ⟨⟨sampleRequests, by decide⟩,
    exercise_user_exists refPlatform sampleStore ⟨sampleRequests, by decide⟩⟩

/-! ## C2 -/

/-- C2, refuted as stated. The path value `abc` matches no stored user, yet
addExercise answers 500 `Failed to add exercise`, not 400 `User not found`:
the lookup rejects a string that is not an ObjectId and the `catch` answers. -/
theorem addExercise_absent_user_counterexample :
    (∀ u ∈ sampleStore.users, u._id.hex ≠ "abc") ∧
      addExercise refPlatform sampleStore ⟨"65e000000000000000000003"⟩ 0 "abc"
          (some "run") (some "30") none
        = (⟨500, Body.error "Failed to add exercise"⟩, sampleStore) := by
  decide

/-- C2, amended. When the user id is an ObjectId that no stored user has,
addExercise answers 400 `User not found`; when it is not an ObjectId at all,
addExercise answers 500 `Failed to add exercise`. In both cases the store is
unchanged, so no exercise is created. -/
theorem addExercise_absent_user (env : Platform) (s : Store) (newId : ObjectId) (now : Int)
    (userId : String) (description duration date : Option String) :
    (∀ oid, env.castObjectId userId = some oid → (∀ u ∈ s.users, u._id ≠ oid) →
        addExercise env s newId now userId description duration date
          = (⟨400, Body.error "User not found"⟩, s)) ∧
      (env.castObjectId userId = none →
        addExercise env s newId now userId description duration date
          = (⟨500, Body.error "Failed to add exercise"⟩, s)) := by
  constructor
  · intro oid hc habs
    simp only [addExercise, findById_of_absent hc habs]
  · intro hc
    simp only [addExercise, findById_of_cast_none hc]

/-- C2 amended, at the sample store: a well-formed id nobody has, and `abc`. -/
theorem addExercise_absent_user_witness :
    addExercise refPlatform sampleStore ⟨"65e000000000000000000003"⟩ 0
        "507f1f77bcf86cd799439099" (some "run") (some "30") none
      = (⟨400, Body.error "User not found"⟩, sampleStore) ∧
    addExercise refPlatform sampleStore ⟨"65e000000000000000000003"⟩ 0 "abc"
        (some "run") (some "30") none
      = (⟨500, Body.error "Failed to add exercise"⟩, sampleStore) :=
  ⟨(addExercise_absent_user refPlatform sampleStore ⟨"65e000000000000000000003"⟩ 0
      "507f1f77bcf86cd799439099" (some "run") (some "30") none).1
      ⟨"507f1f77bcf86cd799439099"⟩ (by decide) (by decide),
   (addExercise_absent_user refPlatform sampleStore ⟨"65e000000000000000000003"⟩ 0
      "abc" (some "run") (some "30") none).2 (by decide)⟩

/-! ## C3 -/

/-- C3, refuted as stated. With `from=garbage`, which is given but is no date,
getLogs for an existing user returns no log at all: the query rejects and the
answer is 500 `Failed to fetch logs`. -/
theorem getLogs_range_counterexample :
    User.findById refPlatform sampleStore annPath = Except.ok (some ⟨annId, "ann"⟩) ∧
      getLogs refPlatform sampleStore annPath (some "garbage") none none
        = (⟨500, Body.error "Failed to fetch logs"⟩, sampleStore) := by
  decide

/-- C3, amended. For every existing user and every optional `from` and `to`
each of which, when given, is a valid date (no limit), getLogs answers with the
log of exactly that user's stored exercises whose date `d` satisfies
`from ≤ d` when `from` is given and `d ≤ to` when `to` is given, in store
order; with neither bound, with all of the user's exercises. A given bound
that is not a valid date makes getLogs answer 500 `Failed to fetch logs`. -/
theorem getLogs_range (env : Platform) (s : Store) (userId : String)
    (fromQ toQ : Option String) (user : User)
    (hu : User.findById env s userId = Except.ok (some user)) :
    (∀ lo hi : Option Int,
        whenTruthy env.newDate fromQ = lo.map JsDate.time →
        whenTruthy env.newDate toQ = hi.map JsDate.time →
        getLogs env s userId fromQ toQ none
          = (⟨200, Body.logs user.username (userExercisesInRange s user._id lo hi).length
              user._id ((userExercisesInRange s user._id lo hi).map (logEntry env))⟩, s)) ∧
      (truthy fromQ = false → truthy toQ = false →
        getLogs env s userId fromQ toQ none
          = (⟨200, Body.logs user.username
              (s.exercises.filter (fun e => decide (e.user = user._id))).length user._id
              ((s.exercises.filter (fun e => decide (e.user = user._id))).map
                (logEntry env))⟩, s)) ∧
      (whenTruthy env.newDate fromQ = some JsDate.invalid ∨
          whenTruthy env.newDate toQ = some JsDate.invalid →
        getLogs env s userId fromQ toQ none
          = (⟨500, Body.error "Failed to fetch logs"⟩, s)) := by
  have main : ∀ lo hi : Option Int,
      whenTruthy env.newDate fromQ = lo.map JsDate.time →
      whenTruthy env.newDate toQ = hi.map JsDate.time →
      getLogs env s userId fromQ toQ none
        = (⟨200, Body.logs user.username (userExercisesInRange s user._id lo hi).length
            user._id ((userExercisesInRange s user._id lo hi).map (logEntry env))⟩, s) := by
    intro lo hi hf ht
    unfold getLogs
    simp only [hu, find_logsQuery env s userId fromQ toQ none user lo hi hu hf ht,
      whenTruthy, applyLimit, List.length_map]
  refine ⟨main, ?_, ?_⟩
  · intro h1 h2
    have hf : whenTruthy env.newDate fromQ = (none : Option Int).map JsDate.time := by
      have := truthy_eq_isSome env.newDate fromQ
      rw [h1] at this
      cases hw : whenTruthy env.newDate fromQ with
      | none => rfl
      | some x => rw [hw] at this; simp at this
    have ht : whenTruthy env.newDate toQ = (none : Option Int).map JsDate.time := by
      have := truthy_eq_isSome env.newDate toQ
      rw [h2] at this
      cases hw : whenTruthy env.newDate toQ with
      | none => rfl
      | some x => rw [hw] at this; simp at this
    have hall : userExercisesInRange s user._id none none
        = s.exercises.filter (fun e => decide (e.user = user._id)) := by
      unfold userExercisesInRange
      apply List.filter_congr
      intro e _
      simp [inRange]
    rw [main none none hf ht, hall]
  · intro h
    obtain ⟨err, herr⟩ := find_logsQuery_invalid env s userId fromQ toQ none h
    unfold getLogs
    simp only [hu, herr]

/-- C3 amended, at the sample store: a lower bound alone keeps the later
exercise, no bound keeps both, and `from=garbage` is answered 500. -/
theorem getLogs_range_witness :
    getLogs refPlatform sampleStore annPath (some "2024-03-01") none none
      = (⟨200, Body.logs "ann" 1 annId [⟨"swim", 45, "Fri Mar 01 2024"⟩]⟩, sampleStore) ∧
    getLogs refPlatform sampleStore annPath none (some "") none
      = (⟨200, Body.logs "ann" 2 annId
          [⟨"run", 30, "Thu Feb 29 2024"⟩, ⟨"swim", 45, "Fri Mar 01 2024"⟩]⟩, sampleStore) ∧
    getLogs refPlatform sampleStore annPath (some "garbage") none none
      = (⟨500, Body.error "Failed to fetch logs"⟩, sampleStore) :=
  ⟨(getLogs_range refPlatform sampleStore annPath (some "2024-03-01") none
      ⟨annId, "ann"⟩ (by decide)).1 (some 1709251200000) none (by decide) (by decide),
   (getLogs_range refPlatform sampleStore annPath none (some "")
      ⟨annId, "ann"⟩ (by decide)).2.1 (by decide) (by decide),
   (getLogs_range refPlatform sampleStore annPath (some "garbage") none
      ⟨annId, "ann"⟩ (by decide)).2.2 (Or.inl (by decide))⟩

/-! ## C4 -/

/-- C4. Whenever getLogs answers with a log body, for any user id, `from`, `to`
and `limit`, its `count` field is the length of its `log` array. -/
theorem getLogs_count_eq_length (env : Platform) (s : Store) (userId : String)
    (fromQ toQ limitQ : Option String) (status : Nat) (username : String) (count : Nat)
    (_id : ObjectId) (log : List LogEntry)
    (h : (getLogs env s userId fromQ toQ limitQ).1
      = ⟨status, Body.logs username count _id log⟩) :
    count = log.length := by
  unfold getLogs at h
  split at h
  · simp at h
  · simp at h
  · split at h
    · simp at h
    · simp only [Response.mk.injEq, Body.logs.injEq] at h
      obtain ⟨_, _, hc, _, hl⟩ := h
      rw [← hc, ← hl]

/-- C4 at the sample store, with a date range and a limit of one. -/
theorem getLogs_count_eq_length_witness :
    (getLogs refPlatform sampleStore annPath (some "2024-01-01") (some "2024-12-31")
        (some "1")).1
      = ⟨200, Body.logs "ann" 1 annId [⟨"run", 30, "Thu Feb 29 2024"⟩]⟩ ∧
    1 = [(⟨"run", 30, "Thu Feb 29 2024"⟩ : LogEntry)].length :=
  ⟨by decide,
   getLogs_count_eq_length refPlatform sampleStore annPath (some "2024-01-01")
     (some "2024-12-31") (some "1") 200 "ann" 1 annId [⟨"run", 30, "Thu Feb 29 2024"⟩]
     (by decide)⟩

/-! ## C5 -/

/-- C5, refuted as stated. With `limit=0`, which parses to the integer 0,
getLogs returns both of the user's exercises, not at most 0: a limit of 0 on a
MongoDB query sets no limit. -/
theorem getLogs_limit_counterexample :
    User.findById refPlatform sampleStore annPath = Except.ok (some ⟨annId, "ann"⟩) ∧
      refPlatform.parseInt "0" = JsNumber.int 0 ∧
      getLogs refPlatform sampleStore annPath none none (some "0")
        = (⟨200, Body.logs "ann" 2 annId
            [⟨"run", 30, "Thu Feb 29 2024"⟩, ⟨"swim", 45, "Fri Mar 01 2024"⟩]⟩,
            sampleStore) := by
  decide

/-- C5, amended. For every existing user, every `from` and `to` that are valid
dates when given, and every supplied `limit` parsing to the integer `n`: when
`n` is positive the log is the first `n` (or all, if fewer) of the exercises
matching the user and the date range, in store order, so it has at most `n`
entries; when `n` is 0 no cap applies and the log is all of them. -/
theorem getLogs_limit (env : Platform) (s : Store) (userId : String)
    (fromQ toQ : Option String) (limit : String) (n : Int) (user : User) (lo hi : Option Int)
    (hu : User.findById env s userId = Except.ok (some user))
    (hf : whenTruthy env.newDate fromQ = lo.map JsDate.time)
    (ht : whenTruthy env.newDate toQ = hi.map JsDate.time)
    (hl : limit ≠ "") (hn : env.parseInt limit = JsNumber.int n) :
    (0 < n → ∃ log,
        getLogs env s userId fromQ toQ (some limit)
          = (⟨200, Body.logs user.username log.length user._id log⟩, s) ∧
        log = ((userExercisesInRange s user._id lo hi).take n.toNat).map (logEntry env) ∧
        (log.length : Int) ≤ n) ∧
      (n = 0 →
        getLogs env s userId fromQ toQ (some limit)
          = (⟨200, Body.logs user.username (userExercisesInRange s user._id lo hi).length
              user._id ((userExercisesInRange s user._id lo hi).map (logEntry env))⟩, s)) := by
  have hq := find_logsQuery env s userId fromQ toQ (some limit) user lo hi hu hf ht
  have hw : whenTruthy env.parseInt (some limit) = some (JsNumber.int n) := by
    simp [whenTruthy, hl, hn]
  rw [hw] at hq
  constructor
  · intro hpos
    have hne : n ≠ 0 := by omega
    have hnat : n.natAbs = n.toNat := by omega
    refine ⟨((userExercisesInRange s user._id lo hi).take n.toNat).map (logEntry env),
      ?_, rfl, ?_⟩
    · unfold getLogs
      simp only [hu, hq, applyLimit, hne, if_false, hnat]
    · simp only [List.length_map, List.length_take]
      omega
  · intro h0
    unfold getLogs
    simp only [hu, hq, applyLimit, h0, if_true, List.length_map]

/-- C5 amended, at the sample store: `limit=1` keeps the first exercise, and
`limit=0` keeps both. -/
theorem getLogs_limit_witness :
    (∃ log,
      getLogs refPlatform sampleStore annPath none none (some "1")
        = (⟨200, Body.logs "ann" log.length annId log⟩, sampleStore) ∧
      log = ((userExercisesInRange sampleStore annId none none).take 1).map
        (logEntry refPlatform) ∧
      (log.length : Int) ≤ 1) ∧
    getLogs refPlatform sampleStore annPath none none (some "0")
      = (⟨200, Body.logs "ann" (userExercisesInRange sampleStore annId none none).length
          annId ((userExercisesInRange sampleStore annId none none).map
            (logEntry refPlatform))⟩, sampleStore) :=
  ⟨(getLogs_limit refPlatform sampleStore annPath none none "1" 1 ⟨annId, "ann"⟩ none none
      (by decide) (by decide) (by decide) (by decide) (by decide)).1 (by decide),
   (getLogs_limit refPlatform sampleStore annPath none none "0" 0 ⟨annId, "ann"⟩ none none
      (by decide) (by decide) (by decide) (by decide) (by decide)).2 rfl⟩

/-! ## C6 -/

/-- C6, refuted as stated. No stored user has the empty username, yet
createUser with the empty username adds nobody and answers 500: the
`required` validator of `username` rejects the empty string. -/
theorem createUser_counterexample :
    (∀ u ∈ sampleStore.users, u.username ≠ "") ∧
      createUser sampleStore ⟨"65e000000000000000000003"⟩ (some "")
        = (⟨500, Body.error "Failed to create user"⟩, sampleStore) := by
  decide

/-- C6, amended. For every store and every non-empty username: if no stored
user has that username, createUser (with a newly generated id) appends exactly
one user with that username and answers with that id and username; if a stored
user already has it, createUser answers 500 `Failed to create user` and the
store is unchanged. A missing or empty username is answered the same way,
store unchanged. In every reachable store no two users share a username. -/
theorem createUser_unique (s : Store) (newId : ObjectId) :
    (∀ name, name ≠ "" → (∀ u ∈ s.users, u.username ≠ name) →
        (∀ u ∈ s.users, u._id ≠ newId) →
        createUser s newId (some name)
          = (⟨200, Body.user name newId⟩, { s with users := s.users ++ [⟨newId, name⟩] })) ∧
      (∀ name, (∃ u ∈ s.users, u.username = name) →
        createUser s newId (some name) = (⟨500, Body.error "Failed to create user"⟩, s)) ∧
      (∀ username, truthy username = false →
        createUser s newId username = (⟨500, Body.error "Failed to create user"⟩, s)) ∧
      (∀ env, Reachable env s → s.users.Pairwise (fun a b => a.username ≠ b.username)) := by
  refine ⟨?_, ?_, ?_, ?_⟩
  · intro name hne hfresh hid
    have h1 : s.users.any (fun v => decide (v._id = newId)) = false := by
      simp only [List.any_eq_false, decide_eq_true_eq]
      exact hid
    have h2 : s.users.any (fun v => decide (v.username = name)) = false := by
      simp only [List.any_eq_false, decide_eq_true_eq]
      exact hfresh
    simp [createUser, UserDoc.save, UserDoc.validate, requiredString, hne, h1, h2]
  · intro name ⟨u, hu, hname⟩
    have h2 : s.users.any (fun v => decide (v.username = name)) = true := by
      simp only [List.any_eq_true, decide_eq_true_eq]
      exact ⟨u, hu, hname⟩
    unfold createUser UserDoc.save UserDoc.validate requiredString
    by_cases hne : name = ""
    · simp [hne]
    · simp only [hne, if_false, h2, if_true]
      split_ifs <;> rfl
  · intro username ht
    cases username with
    | none => rfl
    | some x =>
      have hx : x = "" := by simpa [truthy] using ht
      simp [createUser, UserDoc.save, UserDoc.validate, requiredString, hx]
  · intro env ⟨rs, hrs⟩
    rw [← hrs]
    exact run_invariant env UniqueNames (handle_uniqueNames env) rs Store.empty
      List.Pairwise.nil

/-- C6 amended, at the sample store: a new name, the taken name, the empty
name, and the uniqueness of names in the store. -/
theorem createUser_unique_witness :
    createUser sampleStore ⟨"65e000000000000000000003"⟩ (some "bob")
      = (⟨200, Body.user "bob" ⟨"65e000000000000000000003"⟩⟩,
          { sampleStore with
            users := sampleStore.users ++ [⟨⟨"65e000000000000000000003"⟩, "bob"⟩] }) ∧
    createUser sampleStore ⟨"65e000000000000000000003"⟩ (some "ann")
      = (⟨500, Body.error "Failed to create user"⟩, sampleStore) ∧
    createUser sampleStore ⟨"65e000000000000000000003"⟩ (some "")
      = (⟨500, Body.error "Failed to create user"⟩, sampleStore) ∧
    sampleStore.users.Pairwise (fun a b => a.username ≠ b.username) :=
  ⟨(createUser_unique sampleStore ⟨"65e000000000000000000003"⟩).1 "bob"
      (by decide) (by decide) (by decide),
   (createUser_unique sampleStore ⟨"65e000000000000000000003"⟩).2.1 "ann"
      ⟨⟨annId, "ann"⟩, by decide, rfl⟩,
   (createUser_unique sampleStore ⟨"65e000000000000000000003"⟩).2.2.1 (some "") (by decide),
   (createUser_unique sampleStore ⟨"65e000000000000000000003"⟩).2.2.2 refPlatform
      ⟨sampleRequests, by decide⟩⟩

/-! ## C7 -/

/-- C7, refuted as stated. For an existing user: a request with the date
omitted and no description stores nothing and its answer carries no date; and
a request with the supplied date `garbage` stores nothing either. Both are
answered 500 `Failed to add exercise`. -/
theorem addExercise_date_counterexample :
    User.findById refPlatform sampleStore annPath = Except.ok (some ⟨annId, "ann"⟩) ∧
      addExercise refPlatform sampleStore ⟨"65e000000000000000000003"⟩ 1709337600000 annPath
          none (some "20") none
        = (⟨500, Body.error "Failed to add exercise"⟩, sampleStore) ∧
      addExercise refPlatform sampleStore ⟨"65e000000000000000000003"⟩ 1709337600000 annPath
          (some "row") (some "20") (some "garbage")
        = (⟨500, Body.error "Failed to add exercise"⟩, sampleStore) := by
  decide

/-- C7, amended. For every existing user and every addExercise request that the
schema accepts (a non-empty description, a duration parsing to an integer, a
newly generated id): when the date is omitted (absent or empty), the stored
exercise's date is the request time and the answer's `date` is the calendar
string of the local day of that time; when a date is supplied and is a valid
date, the stored date and the calendar string are those of the supplied date.
A supplied date that is not a valid date stores nothing and is answered 500. -/
theorem addExercise_date (env : Platform) (s : Store) (newId : ObjectId) (now : Int)
    (userId : String) (description duration date : Option String) (user : User)
    (hu : User.findById env s userId = Except.ok (some user)) :
    (∀ desc n, requiredString description = some desc →
        parseIntField env duration = JsNumber.int n →
        (∀ x ∈ s.exercises, x._id ≠ newId) →
        (truthy date = false →
          addExercise env s newId now userId description duration date
            = (⟨200, Body.exercise user._id user.username description (JsNumber.int n)
                (dateStringOfDay (localDay env now))⟩,
               { s with exercises := s.exercises ++ [⟨newId, user._id, desc, n, now⟩] })) ∧
        (∀ t, whenTruthy env.newDate date = some (JsDate.time t) →
          addExercise env s newId now userId description duration date
            = (⟨200, Body.exercise user._id user.username description (JsNumber.int n)
                (dateStringOfDay (localDay env t))⟩,
               { s with exercises := s.exercises ++ [⟨newId, user._id, desc, n, t⟩] }))) ∧
      (whenTruthy env.newDate date = some JsDate.invalid →
        addExercise env s newId now userId description duration date
          = (⟨500, Body.error "Failed to add exercise"⟩, s)) := by
  have hdate0 : truthy date = false → exerciseDateOf env now date = JsDate.time now := by
    intro h
    cases date with
    | none => rfl
    | some x =>
      have hx : x = "" := by simpa [truthy] using h
      simp [exerciseDateOf, hx]
  have hdate1 : ∀ d, whenTruthy env.newDate date = some d → exerciseDateOf env now date = d := by
    intro d h
    cases date with
    | none => simp [whenTruthy] at h
    | some x =>
      by_cases hx : x = ""
      · simp [whenTruthy, hx] at h
      · simp only [whenTruthy, bne_iff_ne, ne_eq, hx, not_false_eq_true, if_true,
          Option.some.injEq] at h
        simp [exerciseDateOf, hx, h]
  constructor
  · intro desc n hdesc hdur hid
    have hany : s.exercises.any (fun x => decide (x._id = newId)) = false := by
      simp only [List.any_eq_false, decide_eq_true_eq]
      exact hid
    constructor
    · intro h
      unfold addExercise
      simp only [hu, hdur, hdate0 h, ExerciseDoc.save, ExerciseDoc.validate, hdesc, castNumber,
        castDate, hany, toDateString]
      rfl
    · intro t h
      unfold addExercise
      simp only [hu, hdur, hdate1 _ h, ExerciseDoc.save, ExerciseDoc.validate, hdesc,
        castNumber, castDate, hany, toDateString]
      rfl
  · intro h
    unfold addExercise
    simp only [hu, hdate1 _ h, ExerciseDoc.save, validate_invalid]

/-- C7 amended, at the sample store: a request with no date at 2024-03-02
10:00 UTC, one with the date `2024-03-05`, and one with the date `garbage`. -/
theorem addExercise_date_witness :
    addExercise refPlatform sampleStore ⟨"65e000000000000000000003"⟩ 1709373600000 annPath
        (some "row") (some "20") none
      = (⟨200, Body.exercise annId "ann" (some "row") (JsNumber.int 20) "Sat Mar 02 2024"⟩,
          { sampleStore with exercises := sampleStore.exercises ++
              [⟨⟨"65e000000000000000000003"⟩, annId, "row", 20, 1709373600000⟩] }) ∧
    addExercise refPlatform sampleStore ⟨"65e000000000000000000003"⟩ 1709373600000 annPath
        (some "row") (some "20") (some "2024-03-05")
      = (⟨200, Body.exercise annId "ann" (some "row") (JsNumber.int 20) "Tue Mar 05 2024"⟩,
          { sampleStore with exercises := sampleStore.exercises ++
              [⟨⟨"65e000000000000000000003"⟩, annId, "row", 20, 1709596800000⟩] }) ∧
    addExercise refPlatform sampleStore ⟨"65e000000000000000000003"⟩ 1709373600000 annPath
        (some "row") (some "20") (some "garbage")
      = (⟨500, Body.error "Failed to add exercise"⟩, sampleStore) :=
  ⟨((addExercise_date refPlatform sampleStore ⟨"65e000000000000000000003"⟩ 1709373600000
      annPath (some "row") (some "20") none ⟨annId, "ann"⟩ (by decide)).1 "row" 20
      (by decide) (by decide) (by decide)).1 (by decide),
   ((addExercise_date refPlatform sampleStore ⟨"65e000000000000000000003"⟩ 1709373600000
      annPath (some "row") (some "20") (some "2024-03-05") ⟨annId, "ann"⟩ (by decide)).1
      "row" 20 (by decide) (by decide) (by decide)).2 1709596800000 (by decide),
   (addExercise_date refPlatform sampleStore ⟨"65e000000000000000000003"⟩ 1709373600000
      annPath (some "row") (some "20") (some "garbage") ⟨annId, "ann"⟩ (by decide)).2
      (by decide)⟩

/-! ## C8 -/

/-- C8, refuted as stated. For the same user and no date bounds, getLogs
reports `count` 2 without a limit and `count` 1 with `limit=1`. -/
theorem getLogs_limit_count_counterexample :
    (getLogs refPlatform sampleStore annPath none none none).1
        = ⟨200, Body.logs "ann" 2 annId
            [⟨"run", 30, "Thu Feb 29 2024"⟩, ⟨"swim", 45, "Fri Mar 01 2024"⟩]⟩ ∧
      (getLogs refPlatform sampleStore annPath none none (some "1")).1
        = ⟨200, Body.logs "ann" 1 annId [⟨"run", 30, "Thu Feb 29 2024"⟩]⟩ := by
  decide

/-- C8, amended. For every store, existing user, and `from` and `to` that are
valid dates when given: the `count` reported with a limit parsing to a positive
integer `n` is the smaller of `n` and the `count` reported for the same request
without the limit; the two counts are equal exactly when the unlimited count is
at most `n`. -/
theorem getLogs_limit_count (env : Platform) (s : Store) (userId : String)
    (fromQ toQ : Option String) (limit : String) (n : Int) (user : User) (lo hi : Option Int)
    (hu : User.findById env s userId = Except.ok (some user))
    (hf : whenTruthy env.newDate fromQ = lo.map JsDate.time)
    (ht : whenTruthy env.newDate toQ = hi.map JsDate.time)
    (hl : limit ≠ "") (hn : env.parseInt limit = JsNumber.int n) (hpos : 0 < n) :
    ∃ c0 c1 log0 log1,
      (getLogs env s userId fromQ toQ none).1
        = ⟨200, Body.logs user.username c0 user._id log0⟩ ∧
      (getLogs env s userId fromQ toQ (some limit)).1
        = ⟨200, Body.logs user.username c1 user._id log1⟩ ∧
      c1 = min n.toNat c0 ∧ (c1 = c0 ↔ (c0 : Int) ≤ n) := by
  have hq0 := find_logsQuery env s userId fromQ toQ none user lo hi hu hf ht
  have hq1 := find_logsQuery env s userId fromQ toQ (some limit) user lo hi hu hf ht
  have hw : whenTruthy env.parseInt (some limit) = some (JsNumber.int n) := by
    simp [whenTruthy, hl, hn]
  rw [hw] at hq1
  have hne : n ≠ 0 := by omega
  have hnat : n.natAbs = n.toNat := by omega
  refine ⟨(userExercisesInRange s user._id lo hi).length,
    min n.toNat (userExercisesInRange s user._id lo hi).length,
    (userExercisesInRange s user._id lo hi).map (logEntry env),
    ((userExercisesInRange s user._id lo hi).take n.toNat).map (logEntry env), ?_, ?_, rfl, ?_⟩
  · unfold getLogs
    simp only [hu, hq0, whenTruthy, applyLimit, List.length_map]
  · unfold getLogs
    simp only [hu, hq1, applyLimit, hne, if_false, hnat, List.length_map, List.length_take]
  · omega

/-- C8 amended, at the sample store with `limit=1`: the counts are 2 and 1. -/
theorem getLogs_limit_count_witness :
    ∃ c0 c1 log0 log1,
      (getLogs refPlatform sampleStore annPath none none none).1
        = ⟨200, Body.logs "ann" c0 annId log0⟩ ∧
      (getLogs refPlatform sampleStore annPath none none (some "1")).1
        = ⟨200, Body.logs "ann" c1 annId log1⟩ ∧
      c1 = min (1 : Int).toNat c0 ∧ (c1 = c0 ↔ (c0 : Int) ≤ 1) :=
  getLogs_limit_count refPlatform sampleStore annPath none none "1" 1 ⟨annId, "ann"⟩ none none
    (by decide) (by decide) (by decide) (by decide) (by decide) (by decide)

/-! ## C9 -/

/-- C9, refuted as stated. For an existing user and `duration=abc`, the
duration parses to `NaN`, but the request does not succeed and nothing is
persisted: the `Number` cast of the schema rejects `NaN` when the exercise is
saved, and the answer is 500 `Failed to add exercise`. -/
theorem addExercise_nan_duration_counterexample :
    User.findById refPlatform sampleStore annPath = Except.ok (some ⟨annId, "ann"⟩) ∧
      refPlatform.parseInt "abc" = JsNumber.nan ∧
      addExercise refPlatform sampleStore ⟨"65e000000000000000000003"⟩ 0 annPath
          (some "row") (some "abc") none
        = (⟨500, Body.error "Failed to add exercise"⟩, sampleStore) := by
  decide

/-- C9, amended. For every existing user and every addExercise request whose
`duration` parses to `NaN`, the schema rejects the exercise when it is saved:
nothing is persisted, the store is unchanged, and the answer is 500
`Failed to add exercise`. -/
theorem addExercise_nan_duration (env : Platform) (s : Store) (newId : ObjectId) (now : Int)
    (userId : String) (description duration date : Option String) (user : User)
    (hu : User.findById env s userId = Except.ok (some user))
    (hnan : parseIntField env duration = JsNumber.nan) :
    addExercise env s newId now userId description duration date
      = (⟨500, Body.error "Failed to add exercise"⟩, s) := by
  unfold addExercise
  simp only [hu, hnan, ExerciseDoc.save, validate_nan]

/-- C9 amended, at the sample store: with `duration=abc` and with no duration,
both of which parse to `NaN`. -/
theorem addExercise_nan_duration_witness :
    addExercise refPlatform sampleStore ⟨"65e000000000000000000003"⟩ 0 annPath
        (some "row") (some "abc") (some "2024-03-02")
      = (⟨500, Body.error "Failed to add exercise"⟩, sampleStore) ∧
    addExercise refPlatform sampleStore ⟨"65e000000000000000000003"⟩ 0 annPath
        (some "row") none (some "2024-03-02")
      = (⟨500, Body.error "Failed to add exercise"⟩, sampleStore) :=
  ⟨addExercise_nan_duration refPlatform sampleStore ⟨"65e000000000000000000003"⟩ 0 annPath
    (some "row") (some "abc") (some "2024-03-02") ⟨annId, "ann"⟩ (by decide) (by decide),
   addExercise_nan_duration refPlatform sampleStore ⟨"65e000000000000000000003"⟩ 0 annPath
    (some "row") none (some "2024-03-02") ⟨annId, "ann"⟩ (by decide) (by decide)⟩

/-! ## C10 -/

/-- C10, refuted as stated. The path value `abc` matches no stored user, yet
getLogs answers 500 `Failed to fetch logs`, not 404 `User not found`. -/
theorem getLogs_absent_user_counterexample :
    (∀ u ∈ sampleStore.users, u._id.hex ≠ "abc") ∧
      getLogs refPlatform sampleStore "abc" none none none
        = (⟨500, Body.error "Failed to fetch logs"⟩, sampleStore) := by
  decide

/-- C10, amended. When the user id is an ObjectId that no stored user has,
getLogs answers 404 `User not found`, whatever `from`, `to` and `limit` are;
when it is not an ObjectId at all, getLogs answers 500 `Failed to fetch logs`.
No log is returned in either case, and getLogs never changes the store. -/
theorem getLogs_absent_user (env : Platform) (s : Store) (userId : String)
    (fromQ toQ limitQ : Option String) :
    (∀ oid, env.castObjectId userId = some oid → (∀ u ∈ s.users, u._id ≠ oid) →
        getLogs env s userId fromQ toQ limitQ = (⟨404, Body.error "User not found"⟩, s)) ∧
      (env.castObjectId userId = none →
        getLogs env s userId fromQ toQ limitQ
          = (⟨500, Body.error "Failed to fetch logs"⟩, s)) ∧
      (getLogs env s userId fromQ toQ limitQ).2 = s := by
  refine ⟨?_, ?_, getLogs_store env s userId fromQ toQ limitQ⟩
  · intro oid hc habs
    simp only [getLogs, findById_of_absent hc habs]
  · intro hc
    simp only [getLogs, findById_of_cast_none hc]

/-- C10 amended, at the sample store: a well-formed id nobody has, and `abc`. -/
theorem getLogs_absent_user_witness :
    getLogs refPlatform sampleStore "507f1f77bcf86cd799439099" (some "2024-01-01") none
        (some "5")
      = (⟨404, Body.error "User not found"⟩, sampleStore) ∧
    getLogs refPlatform sampleStore "abc" (some "2024-01-01") none (some "5")
      = (⟨500, Body.error "Failed to fetch logs"⟩, sampleStore) :=
  ⟨(getLogs_absent_user refPlatform sampleStore "507f1f77bcf86cd799439099"
      (some "2024-01-01") none (some "5")).1 ⟨"507f1f77bcf86cd799439099"⟩
      (by decide) (by decide),
   (getLogs_absent_user refPlatform sampleStore "abc" (some "2024-01-01") none
      (some "5")).2.1 (by decide)⟩

end ExerciseTracker
